import Mathlib

/-!
Shallow embedding of the RoCE GID cache core
(drivers/infiniband/core/roce_gid_cache.c and roce_gid_mgmt.c).

Machine integers are modelled as Nat with explicit truncation where the C
code relies on fixed-width behaviour: the per-entry sequence counter is a
32-bit unsigned int (sentinel value (unsigned int)(-1) = 2^32 - 1), and
netdev pointers are compared as 64-bit uintptr_t values.  External
collaborators (the modify_gid hardware callback and addrconf_ifid_eui48)
are threaded through as function parameters.  Fallible C functions
returning negative errno values are modelled as functions returning an
Int result code paired with the updated state.
-/

/-- Value 2^32 - 1 of (unsigned int)(-1) on the platforms this driver
targets; used both as the in-flight sequence sentinel and as the
all-ones 32-bit mask constant. -/
def UINT_MAX : Nat := 4294967295

/-- The in-flight sentinel sequence value written at the start of
write_gid (cache->data_vec[ix].seq = -1). -/
def SEQ_SENTINEL : Nat := UINT_MAX

/-- Value 2^64 - 1 of (uintptr_t)(-1) / (void *)(-1) used as the
all-ones netdev mask in roce_gid_type_netdev_msk. -/
def UINTPTR_MAX : Nat := 18446744073709551615

/-- errno constants (the C code returns their negations). -/
def ENOSYS : Int := 38

def ENOSPC : Int := 28

def EPERM : Int := 1

def EINVAL : Int := 22

def EAGAIN : Int := 11

/-- union ib_gid: a 16-byte value; bytes 0..7 form global.subnet_prefix,
bytes 8..15 the interface identifier.  memcmp equality on the 16 bytes
corresponds to structural equality of the two fields. -/
structure Gid where
  subnet_pfx : Nat
  interface_id : Nat
deriving DecidableEq

/-- union ib_gid zgid: the zero GID (file-scope zero-initialised). -/
def zgid : Gid := { subnet_pfx := 0, interface_id := 0 }

/-- struct ib_gid_attr: gid_type is the identity kind (enum, stored as a
32-bit value for mask purposes), ndev the interface pointer compared by
identity as a uintptr_t (0 = NULL). -/
structure GidAttr where
  gid_type : Nat
  ndev : Nat
deriving DecidableEq

/-- static const struct ib_gid_attr zattr: the zero attribute set. -/
def zattr : GidAttr := { gid_type := 0, ndev := 0 }

/-- roce_gid_type_msk = { .gid_type = -1 }: match by kind only. -/
def roce_gid_type_msk : GidAttr := { gid_type := UINT_MAX, ndev := 0 }

/-- roce_gid_type_netdev_msk = { .gid_type = -1, .ndev = (void *)-1 }:
match by kind and interface. -/
def roce_gid_type_netdev_msk : GidAttr :=
  { gid_type := UINT_MAX, ndev := UINTPTR_MAX }

/-- One slot of the cache: struct ib_roce_gid_cache_entry
{ seq, gid, attr, context }.  context is the opaque pointer written by
the modify_gid callback (0 = NULL). -/
structure CacheEntry where
  seq : Nat
  gid : Gid
  attr : GidAttr
  context : Nat
deriving DecidableEq

/-- The zero-initialised entry produced by kcalloc at table allocation,
also used as the out-of-range default for list reads. -/
def zentry : CacheEntry :=
  { seq := 0, gid := zgid, attr := zattr, context := 0 }

/-- struct ib_roce_gid_cache: data_vec of sz entries plus the active
flag.  The mutex is not part of the functional state; lock usage is
tracked separately by the trace functions below. -/
structure CacheTable where
  data_vec : List CacheEntry
  active : Bool
deriving DecidableEq

/-- What the lock-free read protocol observes of one slot during one
scan: the first seq read, the gid/attr data copied between the two
barrier points, and the re-read seq.  In a quiescent table seq1 = seq2 =
the stored seq; a concurrent writer can make them differ or make seq1
the sentinel. -/
structure SlotView where
  seq1 : Nat
  gid : Gid
  attr : GidAttr
  seq2 : Nat
deriving DecidableEq

/-- The quiescent observation of a stored entry (both seq reads return
the stored value). -/
def CacheEntry.view (e : CacheEntry) : SlotView :=
  { seq1 := e.seq, gid := e.gid, attr := e.attr, seq2 := e.seq }

/-- Quiescent observations of a whole table, in slot order. -/
def table_views (c : CacheTable) : List SlotView :=
  c.data_vec.map CacheEntry.view

/-- The per-slot acceptance test of find_gid, one branch per C continue:
skip on sentinel, on kind mismatch under the mask, on gid memcmp
mismatch, on masked netdev pointer mismatch, and on a seq that changed
between the two reads. -/
def find_gid_match (gid : Gid) (val msk : GidAttr) (v : SlotView) : Bool :=
  if v.seq1 = SEQ_SENTINEL then false
  else if msk.gid_type ≠ 0 ∧ v.attr.gid_type ≠ val.gid_type &&& msk.gid_type then false
  else if v.gid ≠ gid then false
  else if msk.ndev ≠ 0 ∧ v.attr.ndev ≠ msk.ndev &&& val.ndev then false
  else if v.seq1 = v.seq2 then true
  else false

/-- The scan loop of find_gid, carrying the index of the head view. -/
def find_gid_from (gid : Gid) (val msk : GidAttr) : Nat → List SlotView → Option Nat
  | _, [] => none
  | i, v :: rest =>
      if find_gid_match gid val msk v then some i
      else find_gid_from gid val msk (i + 1) rest

/-- int find_gid(cache, gid, val, msk): linear scan over the slots in
ascending index order returning the first accepted index (C returns -1
for none).  The val argument may be NULL in C only when msk = zattr, in
which case it is never dereferenced; callers pass zattr in that case
here. -/
def find_gid (views : List SlotView) (gid : Gid) (val msk : GidAttr) : Option Nat :=
  find_gid_from gid val msk 0 views

/-- The external hardware programming callback ib_dev->modify_gid,
keyed by (port, index, gid, attr); returns (errno result, context
written through the out pointer). -/
def ModifyGid : Type := Nat → Nat → Gid → GidAttr → Int × Nat

/-- The sequence value write_gid publishes at step (f):
  if (++orig_seq == (unsigned int)-1) orig_seq = 0;
  seq = orig_seq + 1;
with 32-bit unsigned wrap-around. -/
def next_seq (orig_seq : Nat) : Nat :=
  let s1 := (orig_seq + 1) % (UINT_MAX + 1)
  let s2 := if s1 = SEQ_SENTINEL then 0 else s1
  (s2 + 1) % (UINT_MAX + 1)

/-- static int write_gid(ib_dev, port, cache, ix, gid, attr): the write
protocol for slot ix.  The intermediate sentinel publication and memory
barriers have no effect on the sequential final state modelled here; the
RCU handover of the old netdev reference is resource management outside
the modelled state.  On modify_gid failure the empty entry (zgid, zattr,
NULL context) is written instead of the requested one, and the callback
result is returned either way. -/
def write_gid (mg : ModifyGid) (port : Nat) (cache : CacheTable) (ix : Nat)
    (gid : Gid) (attr : GidAttr) : CacheTable × Int :=
  let orig_seq := (cache.data_vec.getD ix zentry).seq
  let r := mg port ix gid attr
  let e : CacheEntry :=
    if r.1 ≠ 0 then
      { seq := next_seq orig_seq, gid := zgid, attr := zattr, context := 0 }
    else
      { seq := next_seq orig_seq, gid := gid, attr := attr, context := r.2 }
  ({ cache with data_vec := cache.data_vec.set ix e }, r.1)

/-- static void make_default_gid(dev, gid): the link-local default GID,
subnet prefix fe80::/64 (the byte image of cpu_to_be64(0xfe80...)) and
the EUI-48 derived interface identifier.  addrconf_ifid_eui48 is an
external collaborator, threaded through as the ifid parameter. -/
def make_default_gid (ifid : Nat → Nat) (ndev : Nat) : Gid :=
  { subnet_pfx := 0xfe80000000000000, interface_id := ifid ndev }

/-- int roce_add_gid(ib_dev, port, gid, attr).  cache? = none models a
device whose cache.roce_gid_cache array is absent. -/
def roce_add_gid (mg : ModifyGid) (cache? : Option CacheTable) (port : Nat)
    (gid : Gid) (attr : GidAttr) : Int × Option CacheTable :=
  match cache? with
  | none => (-ENOSYS, none)
  | some cache =>
    if !cache.active then (-ENOSYS, some cache)
    else
      match find_gid (table_views cache) gid attr roce_gid_type_msk with
      | some _ => (0, some cache)
      | none =>
        match find_gid (table_views cache) zgid zattr zattr with
        | none => (-ENOSPC, some cache)
        | some ix => (0, some (write_gid mg port cache ix gid attr).1)

/-- int roce_del_gid(ib_dev, port, gid, attr). -/
def roce_del_gid (mg : ModifyGid) (ifid : Nat → Nat) (cache? : Option CacheTable)
    (port : Nat) (gid : Gid) (attr : GidAttr) : Int × Option CacheTable :=
  match cache? with
  | none => (0, none)
  | some cache =>
    if !cache.active then (-ENOSYS, some cache)
    else if attr.ndev ≠ 0 ∧ gid = make_default_gid ifid attr.ndev then
      (-EPERM, some cache)
    else
      match find_gid (table_views cache) gid attr roce_gid_type_netdev_msk with
      | none => (0, some cache)
      | some ix => (0, some (write_gid mg port cache ix zgid zattr).1)

/-- int roce_del_all_netdev_gids(ib_dev, port, ndev): scan every slot
and write the empty entry into each slot whose current attr.ndev equals
the given interface, on the evolving table. -/
def roce_del_all_netdev_gids (mg : ModifyGid) (cache? : Option CacheTable)
    (port : Nat) (ndev : Nat) : Int × Option CacheTable :=
  match cache? with
  | none => (0, none)
  | some cache =>
    if !cache.active then (-ENOSYS, some cache)
    else
      let cache' := (List.range cache.data_vec.length).foldl
        (fun c ix =>
          if (c.data_vec.getD ix zentry).attr.ndev = ndev then
            (write_gid mg port c ix zgid zattr).1
          else c)
        cache
      (0, some cache')

/-- int roce_gid_cache_get_gid(ib_dev, port, index, gid, attr): the
lock-free read protocol on one slot.  obs gives the SlotView the two
racy seq reads and the intermediate copy observe for each slot index
during this call; gid0 / attr0 are the contents of the caller output
buffers on entry (attr0 = none models a NULL attr pointer).  The local
copy (v.gid, v.attr) is taken before the re-verification and reaches the
outputs only on success. -/
def roce_gid_cache_get_gid (cache? : Option CacheTable) (index : Int)
    (obs : Nat → SlotView) (gid0 : Gid) (attr0 : Option GidAttr) :
    Int × Gid × Option GidAttr :=
  match cache? with
  | none => (-EINVAL, gid0, attr0)
  | some cache =>
    if !cache.active then (-ENOSYS, gid0, attr0)
    else if index < 0 ∨ (cache.data_vec.length : Int) ≤ index then
      (-EINVAL, gid0, attr0)
    else
      let v := obs index.toNat
      if v.seq1 = SEQ_SENTINEL ∨ v.seq1 ≠ v.seq2 then (-EAGAIN, gid0, attr0)
      else (0, v.gid, attr0.map (fun _ => v.attr))

/-- enum ib_gid_type has IB_GID_TYPE_SIZE = 2 members in this series
(IB_GID_TYPE_IB = 0, IB_GID_TYPE_ROCE_V2 = 1); the header lives outside
the two source files, value taken from the PORT_CAP_TO_GID_TYPE table of
roce_gid_mgmt.c. -/
def IB_GID_TYPE_SIZE : Nat := 2

/-- Bitwise complement of a 64-bit unsigned long value (~x). -/
def ulnot (x : Nat) : Nat := (x % (UINTPTR_MAX + 1)) ^^^ UINTPTR_MAX

/-- One iteration of the kind loop of roce_gid_cache_set_default_gid,
acting on the (table, success counter) pair for kind i:
skip kinds absent from the mask (1UL << i & ~gid_type_mask); otherwise
write the empty entry at index success, and if that delete succeeded
write the default gid there, bumping success only if that also
succeeded. -/
def set_default_step (mg : ModifyGid) (port ndev : Nat) (gid : Gid)
    (gid_type_mask : Nat) (st : CacheTable × Nat) (i : Nat) : CacheTable × Nat :=
  if (1 <<< i) &&& ulnot gid_type_mask ≠ 0 then st
  else
    let p1 := write_gid mg port st.1 st.2 zgid zattr
    if p1.2 ≠ 0 then (p1.1, st.2)
    else
      let p2 := write_gid mg port p1.1 st.2 gid { gid_type := i, ndev := ndev }
      if p2.2 ≠ 0 then (p2.1, st.2) else (p2.1, st.2 + 1)

/-- void roce_gid_cache_set_default_gid(ib_dev, port, ndev,
gid_type_mask): iterate the kinds 0 ≤ i < IB_GID_TYPE_SIZE in ascending
order over the (table, success) state.  Note: the C function checks only
that the per-port cache pointer is non-NULL; it checks neither the
active flag nor takes the table mutex. -/
def roce_gid_cache_set_default_gid (mg : ModifyGid) (ifid : Nat → Nat)
    (cache? : Option CacheTable) (port ndev : Nat) (gid_type_mask : Nat) :
    Option CacheTable :=
  match cache? with
  | none => none
  | some cache =>
    let gid := make_default_gid ifid ndev
    some (((List.range IB_GID_TYPE_SIZE).foldl
      (set_default_step mg port ndev gid gid_type_mask) (cache, 0)).1)

/-!
Lock-usage traces.  The C writers serialise through mutex_lock /
mutex_unlock on cache->lock; these companion functions record, for each
operation and in program order, the lock events and every invocation of
the slot-write routine write_gid (with the slot index passed to it).
-/

/-- One observable event of a mutating operation. -/
inductive LockEvent where
  | lock : LockEvent
  | unlock : LockEvent
  | write : Nat → LockEvent
deriving DecidableEq

/-- True for slot-write events. -/
def LockEvent.isWrite : LockEvent → Bool
  | .write _ => true
  | _ => false

/-- Checks, carrying the current lock depth, that every write event
occurs while the lock is held and that unlocks are balanced. -/
def writesUnderLock : Nat → List LockEvent → Bool
  | _, [] => true
  | d, .lock :: rest => writesUnderLock (d + 1) rest
  | d, .unlock :: rest => decide (0 < d) && writesUnderLock (d - 1) rest
  | d, .write _ :: rest => decide (0 < d) && writesUnderLock d rest

/-- A trace that is either empty or one lock ... unlock section whose
interior consists solely of slot writes: the shape of an operation that
takes the lock once and holds it across all its slot mutations. -/
def singleLockSection (t : List LockEvent) : Bool :=
  match t with
  | [] => true
  | LockEvent.lock :: rest =>
      (match rest.getLast? with
       | some LockEvent.unlock => true
       | _ => false) && rest.dropLast.all LockEvent.isWrite
  | _ => false

/-- Event trace of roce_add_gid: early NotReady exits produce no events;
otherwise mutex_lock, the slot write when an empty slot is found and no
kind-match exists, mutex_unlock. -/
def roce_add_gid_trace (cache? : Option CacheTable) (gid : Gid) (attr : GidAttr) :
    List LockEvent :=
  match cache? with
  | none => []
  | some cache =>
    if !cache.active then []
    else
      [LockEvent.lock] ++
      (match find_gid (table_views cache) gid attr roce_gid_type_msk with
       | some _ => []
       | none =>
         match find_gid (table_views cache) zgid zattr zattr with
         | none => []
         | some ix => [LockEvent.write ix]) ++
      [LockEvent.unlock]

/-- Event trace of roce_del_gid: the EPERM default-GID rejection happens
before the lock is taken. -/
def roce_del_gid_trace (ifid : Nat → Nat) (cache? : Option CacheTable)
    (gid : Gid) (attr : GidAttr) : List LockEvent :=
  match cache? with
  | none => []
  | some cache =>
    if !cache.active then []
    else if attr.ndev ≠ 0 ∧ gid = make_default_gid ifid attr.ndev then []
    else
      [LockEvent.lock] ++
      (match find_gid (table_views cache) gid attr roce_gid_type_netdev_msk with
       | none => []
       | some ix => [LockEvent.write ix]) ++
      [LockEvent.unlock]

/-- Event trace of roce_del_all_netdev_gids: one lock held across the
whole scan, a write event per matching slot on the evolving table. -/
def roce_del_all_netdev_gids_trace (mg : ModifyGid) (cache? : Option CacheTable)
    (port : Nat) (ndev : Nat) : List LockEvent :=
  match cache? with
  | none => []
  | some cache =>
    if !cache.active then []
    else
      [LockEvent.lock] ++
      ((List.range cache.data_vec.length).foldl
        (fun (st : CacheTable × List LockEvent) ix =>
          if (st.1.data_vec.getD ix zentry).attr.ndev = ndev then
            ((write_gid mg port st.1 ix zgid zattr).1, st.2 ++ [LockEvent.write ix])
          else st)
        (cache, [])).2 ++
      [LockEvent.unlock]

/-- One iteration of the set-default kind loop with its write events
appended; the state is (table, success counter, events so far). -/
def set_default_step_trace (mg : ModifyGid) (port ndev : Nat) (gid : Gid)
    (gid_type_mask : Nat) (st : CacheTable × Nat × List LockEvent) (i : Nat) :
    CacheTable × Nat × List LockEvent :=
  if (1 <<< i) &&& ulnot gid_type_mask ≠ 0 then st
  else
    let p1 := write_gid mg port st.1 st.2.1 zgid zattr
    let ev1 := st.2.2 ++ [LockEvent.write st.2.1]
    if p1.2 ≠ 0 then (p1.1, st.2.1, ev1)
    else
      let p2 := write_gid mg port p1.1 st.2.1 gid { gid_type := i, ndev := ndev }
      let ev2 := ev1 ++ [LockEvent.write st.2.1]
      if p2.2 ≠ 0 then (p2.1, st.2.1, ev2) else (p2.1, st.2.1 + 1, ev2)

/-- Event trace of roce_gid_cache_set_default_gid: the C function calls
write_gid directly, with no mutex_lock / mutex_unlock anywhere in its
body, so the trace contains only write events. -/
def roce_gid_cache_set_default_gid_trace (mg : ModifyGid) (ifid : Nat → Nat)
    (cache? : Option CacheTable) (port ndev : Nat) (gid_type_mask : Nat) :
    List LockEvent :=
  match cache? with
  | none => []
  | some cache =>
    ((List.range IB_GID_TYPE_SIZE).foldl
      (set_default_step_trace mg port ndev (make_default_gid ifid ndev) gid_type_mask)
      (cache, 0, [])).2.2

/-!
Event resolution (roce_gid_mgmt.c): netdevice_event maps a raw notifier
event to at most one queued work item carrying up to two (callback,
filter) commands, executed in order by netdevice_event_work_handler.
-/

/-- The two callbacks used by netdevice_event work commands:
add_netdev_ips enumerates the default GID and all configured addresses
of the interface and adds them; del_netdev_ips calls
roce_del_all_netdev_gids. -/
inductive RoceNetdevCB where
  | add_netdev_ips : RoceNetdevCB
  | del_netdev_ips : RoceNetdevCB
deriving DecidableEq

/-- The two port filters paired with those callbacks. -/
inductive RoceNetdevFilter where
  | is_eth_port_of_netdev : RoceNetdevFilter
  | pass_all_filter : RoceNetdevFilter
deriving DecidableEq

/-- struct netdev_event_work_cmd. -/
structure NetdevEventWorkCmd where
  cb : RoceNetdevCB
  filter : RoceNetdevFilter
deriving DecidableEq

/-- static const add_cmd = { add_netdev_ips, is_eth_port_of_netdev }. -/
def add_cmd : NetdevEventWorkCmd :=
  { cb := RoceNetdevCB.add_netdev_ips, filter := RoceNetdevFilter.is_eth_port_of_netdev }

/-- static const del_cmd = { del_netdev_ips, pass_all_filter }. -/
def del_cmd : NetdevEventWorkCmd :=
  { cb := RoceNetdevCB.del_netdev_ips, filter := RoceNetdevFilter.pass_all_filter }

/-- The raw netdevice notifier events the switch distinguishes; other
covers every code hitting the default branch (NETDEV_DOWN is spelled out
because the claim set mentions it). -/
inductive NetdevEvent where
  | netdev_register : NetdevEvent
  | netdev_up : NetdevEvent
  | netdev_unregister : NetdevEvent
  | netdev_changeaddr : NetdevEvent
  | netdev_down : NetdevEvent
  | other : NetdevEvent
deriving DecidableEq

/-- enum netdev reg_state value NETREG_UNREGISTERED (the header is
outside the two source files; the enum order is UNINITIALIZED,
REGISTERED, UNREGISTERING, UNREGISTERED, ...). -/
def NETREG_UNREGISTERED : Nat := 3

/-- static int netdevice_event(...): resolve one raw notification into
the cmds array (size ROCE_NETDEV_CALLBACK_SZ = 2, zero-initialised, so
unused tail entries are none) of the queued work item, or none when no
work is queued.  alloc_ok models the kmalloc of the work item, attempted
only after the switch has chosen a non-empty command set. -/
def netdevice_event (event : NetdevEvent) (reg_state : Nat) (alloc_ok : Bool) :
    Option (List (Option NetdevEventWorkCmd)) :=
  let cmds? : Option (List (Option NetdevEventWorkCmd)) :=
    match event with
    | NetdevEvent.netdev_register => some [some add_cmd, none]
    | NetdevEvent.netdev_up => some [some add_cmd, none]
    | NetdevEvent.netdev_unregister =>
        if reg_state < NETREG_UNREGISTERED then some [some del_cmd, none] else none
    | NetdevEvent.netdev_changeaddr => some [some del_cmd, some add_cmd]
    | _ => none
  match cmds? with
  | none => none
  | some cmds => if alloc_ok then some cmds else none

/-- static void netdevice_event_work_handler(...): execute the commands
in array order, stopping at the first NULL cb; yields the sequence of
commands actually run. -/
def netdevice_event_work_handler : List (Option NetdevEventWorkCmd) →
    List NetdevEventWorkCmd
  | some c :: rest => c :: netdevice_event_work_handler rest
  | _ => []

/-- Strict wrapping (serial-number) order on the 32-bit sequence
counter: a precedes b when the forward distance from a to b, modulo
2^32, lies in (0, 2^31). -/
def seq_wlt (a b : Nat) : Prop :=
  0 < (b + (UINT_MAX + 1) - a % (UINT_MAX + 1)) % (UINT_MAX + 1) ∧
  (b + (UINT_MAX + 1) - a % (UINT_MAX + 1)) % (UINT_MAX + 1) < 2147483648

/-!
Concrete fixtures used by witness and counterexample theorems.
-/

/-- A programming callback that always succeeds, returning context 7. -/
def mgOk : ModifyGid := fun _ _ _ _ => (0, 7)

/-- A programming callback that always fails with -EIO. -/
def mgFail : ModifyGid := fun _ _ _ _ => (-5, 0)

/-- A concrete EUI-48 interface-id derivation. -/
def ifid9 : Nat → Nat := fun n => n + 9

/-- A one-slot active table holding only the zero entry. -/
def t1 : CacheTable := { data_vec := [zentry], active := true }

/-- A one-slot inactive table holding only the zero entry. -/
def t0inact : CacheTable := { data_vec := [zentry], active := false }

/-- A concrete non-zero GID. -/
def g1 : Gid := { subnet_pfx := 1, interface_id := 2 }

/-- A concrete attribute set (kind 0, interface pointer 5). -/
def a1 : GidAttr := { gid_type := 0, ndev := 5 }

/-- A quiescent observation function: every slot reads as the zero
entry with stable sequence 0. -/
def obsW : Nat → SlotView := fun _ => { seq1 := 0, gid := zgid, attr := zattr, seq2 := 0 }

/-- An observation function modelling a concurrent writer racing every
slot: the two seq reads differ (1 then 2). -/
def obsT : Nat → SlotView := fun _ => { seq1 := 1, gid := zgid, attr := zattr, seq2 := 2 }

/-- A two-slot observation list whose first slot is in-flight (sentinel
seq) and whose second slot stably holds g1 with attributes a1. -/
def viewsW : List SlotView :=
  [{ seq1 := SEQ_SENTINEL, gid := g1, attr := a1, seq2 := SEQ_SENTINEL },
   { seq1 := 0, gid := g1, attr := a1, seq2 := 0 }]

/-!
Helper lemmas.
-/

/-- The propositional reading of one find_gid slot acceptance: valid
first seq read, kind match under the mask, byte-exact gid match, masked
pointer-identity interface match, and unchanged seq at re-verification. -/
def FindMatchP (gid : Gid) (val msk : GidAttr) (v : SlotView) : Prop :=
  v.seq1 ≠ SEQ_SENTINEL ∧
  (msk.gid_type ≠ 0 → v.attr.gid_type = val.gid_type &&& msk.gid_type) ∧
  v.gid = gid ∧
  (msk.ndev ≠ 0 → v.attr.ndev = msk.ndev &&& val.ndev) ∧
  v.seq1 = v.seq2

instance (gid : Gid) (val msk : GidAttr) (v : SlotView) :
    Decidable (FindMatchP gid val msk v) := by
  unfold FindMatchP; infer_instance

theorem find_gid_match_iff_P (gid : Gid) (val msk : GidAttr) (v : SlotView) :
    find_gid_match gid val msk v = true ↔ FindMatchP gid val msk v := by
  unfold find_gid_match FindMatchP
  split_ifs with h1 h2 h3 h4 h5 <;> simp_all

theorem find_gid_from_shift (gid : Gid) (val msk : GidAttr) :
    ∀ (views : List SlotView) (i : Nat),
      find_gid_from gid val msk i views =
        (find_gid_from gid val msk 0 views).map (· + i) := by
  intro views
  induction views with
  | nil => intro i; rfl
  | cons v rest ih =>
    intro i
    by_cases hm : find_gid_match gid val msk v
    · simp [find_gid_from, hm]
    · simp only [find_gid_from, hm, if_false, Bool.false_eq_true]
      rw [ih (i + 1), ih 1]
      cases find_gid_from gid val msk 0 rest with
      | none => rfl
      | some a => simp; omega

theorem find_gid_eq_some_iff (gid : Gid) (val msk : GidAttr) :
    ∀ (views : List SlotView) (i : Nat),
      find_gid views gid val msk = some i ↔
        ∃ v, views[i]? = some v ∧ find_gid_match gid val msk v = true ∧
          ∀ j w, j < i → views[j]? = some w →
            find_gid_match gid val msk w = false := by
  intro views
  induction views with
  | nil => intro i; simp [find_gid, find_gid_from]
  | cons v rest ih =>
    intro i
    by_cases hm : find_gid_match gid val msk v
    · constructor
      · intro h
        have hi : 0 = i := by
          simpa [find_gid, find_gid_from, hm] using h
        subst hi
        exact ⟨v, by simp, hm, fun j w hj => by omega⟩
      · rintro ⟨w, hw, hmw, hlow⟩
        cases i with
        | zero => simp [find_gid, find_gid_from, hm]
        | succ k =>
          have := hlow 0 v (Nat.succ_pos k) (by simp)
          rw [hm] at this
          cases this
    · have hstep : find_gid (v :: rest) gid val msk =
          (find_gid rest gid val msk).map (· + 1) := by
        simp only [find_gid, find_gid_from, hm, if_false, Bool.false_eq_true]
        exact find_gid_from_shift gid val msk rest 1
      cases i with
      | zero =>
        constructor
        · intro h
          rw [hstep] at h
          cases hfr : find_gid rest gid val msk with
          | none => rw [hfr] at h; cases h
          | some k => rw [hfr] at h; simp at h
        · rintro ⟨w, hw, hmw, _⟩
          simp only [List.getElem?_cons_zero, Option.some.injEq] at hw
          subst hw
          rw [hmw] at hm
          cases hm rfl
      | succ k =>
        rw [hstep]
        constructor
        · intro h
          cases hfr : find_gid rest gid val msk with
          | none => rw [hfr] at h; cases h
          | some m =>
            rw [hfr] at h
            simp at h
            have hmk : m = k := by omega
            subst hmk
            obtain ⟨w, hw, hmw, hlow⟩ := (ih m).mp hfr
            refine ⟨w, by simpa using hw, hmw, ?_⟩
            intro j u hj hu
            cases j with
            | zero =>
              simp only [List.getElem?_cons_zero, Option.some.injEq] at hu
              subst hu
              simpa using hm
            | succ j' =>
              simp only [List.getElem?_cons_succ] at hu
              exact hlow j' u (by omega) hu
        · rintro ⟨w, hw, hmw, hlow⟩
          simp only [List.getElem?_cons_succ] at hw
          have : find_gid rest gid val msk = some k := by
            refine (ih k).mpr ⟨w, hw, hmw, ?_⟩
            intro j u hj hu
            exact hlow (j + 1) u (by omega) (by simpa using hu)
          rw [this]; rfl

theorem find_gid_eq_none_iff (gid : Gid) (val msk : GidAttr) :
    ∀ (views : List SlotView),
      find_gid views gid val msk = none ↔
        ∀ v ∈ views, find_gid_match gid val msk v = false := by
  intro views
  induction views with
  | nil => simp [find_gid, find_gid_from]
  | cons v rest ih =>
    by_cases hm : find_gid_match gid val msk v
    · simp [find_gid, find_gid_from, hm]
    · have hstep : find_gid (v :: rest) gid val msk =
          (find_gid rest gid val msk).map (· + 1) := by
        simp only [find_gid, find_gid_from, hm, if_false, Bool.false_eq_true]
        exact find_gid_from_shift gid val msk rest 1
      rw [hstep]
      constructor
      · intro h
        intro w hw
        rcases List.mem_cons.mp hw with hw | hw
        · subst hw; simpa using hm
        · have : find_gid rest gid val msk = none := by
            cases hfr : find_gid rest gid val msk with
            | none => rfl
            | some m => rw [hfr] at h; cases h
          exact (ih.mp this) w hw
      · intro h
        have : find_gid rest gid val msk = none :=
          ih.mpr (fun w hw => h w (List.mem_cons_of_mem v hw))
        rw [this]; rfl

theorem getD_set_self (l : List CacheEntry) (ix : Nat) (e d : CacheEntry)
    (h : ix < l.length) : (l.set ix e).getD ix d = e := by
  rw [List.getD_eq_getElem?_getD, List.getElem?_set_eq_of_lt e h]
  rfl

/-- The skip test of the set-default kind loop (1UL << i & ~mask) is
nonzero exactly when bit i of the mask is clear. -/
theorem set_default_skip_iff (mask i : Nat) (hm : mask < UINTPTR_MAX + 1)
    (hi : i < 64) : ((1 <<< i) &&& ulnot mask ≠ 0) ↔ ¬ mask.testBit i := by
  have hmax : UINTPTR_MAX = 2 ^ 64 - 1 := by norm_num [UINTPTR_MAX]
  have hmod : mask % (UINTPTR_MAX + 1) = mask := Nat.mod_eq_of_lt hm
  have hshift : (1 : Nat) <<< i = 2 ^ i := by
    rw [Nat.shiftLeft_eq, one_mul]
  have hbit : (ulnot mask).testBit i = !(mask.testBit i) := by
    unfold ulnot
    rw [hmod, hmax]
    rw [Nat.testBit_xor, Nat.testBit_two_pow_sub_one]
    simp [hi]
  rw [hshift, Nat.land_comm, Nat.and_two_pow, hbit]
  cases h : mask.testBit i <;> simp [h]

/-- foldl preserves any invariant preserved by each step. -/
theorem foldl_preserves {α σ : Type} (f : σ → α → σ) (P : σ → Prop)
    (hstep : ∀ s a, P s → P (f s a)) :
    ∀ (l : List α) (s : σ), P s → P (l.foldl f s) := by
  intro l
  induction l with
  | nil => intro s hs; exact hs
  | cons a rest ih => intro s hs; exact ih (f s a) (hstep s a hs)

theorem writesUnderLock_writes_unlock :
    ∀ (ws : List LockEvent), ws.all LockEvent.isWrite = true →
      ∀ d : Nat, 0 < d → writesUnderLock d (ws ++ [LockEvent.unlock]) = true := by
  intro ws
  induction ws with
  | nil =>
    intro _ d hd
    simp [writesUnderLock, hd]
  | cons w rest ih =>
    intro hall d hd
    simp only [List.all_cons, Bool.and_eq_true] at hall
    cases w with
    | lock => simp [LockEvent.isWrite] at hall
    | unlock => simp [LockEvent.isWrite] at hall
    | write i =>
      simp only [List.cons_append, writesUnderLock, hd, decide_eq_true_eq,
        Bool.and_eq_true]
      refine ⟨by simp [hd], ?_⟩
      exact ih hall.2 d hd

theorem singleLockSection_writes (ws : List LockEvent)
    (h : ws.all LockEvent.isWrite = true) :
    singleLockSection (LockEvent.lock :: ws ++ [LockEvent.unlock]) = true := by
  have h1 : (ws ++ [LockEvent.unlock]).getLast? = some LockEvent.unlock :=
    List.getLast?_concat ws
  have h2 : (ws ++ [LockEvent.unlock]).dropLast = ws := List.dropLast_concat
  simp [singleLockSection, h1, h2, h]

/-- Closed form of the published sequence value: the C increment /
sentinel-skip / increment sequence amounts to +2 for all stable versions
below UINT_MAX - 1 and restarts at 1 from the top two values. -/
theorem next_seq_closed (v : Nat) (hv : v < UINT_MAX + 1) :
    next_seq v = if UINT_MAX - 1 ≤ v then 1 else v + 2 := by
  have hv' : v < 4294967296 := by simpa [UINT_MAX] using hv
  simp only [next_seq, SEQ_SENTINEL, UINT_MAX]
  rcases Nat.lt_or_ge v 4294967294 with hlt | hge
  · have h1 : (v + 1) % (4294967295 + 1) = v + 1 := Nat.mod_eq_of_lt (by omega)
    rw [h1]
    have h2 : ¬(v + 1 = 4294967295) := by omega
    rw [if_neg h2]
    have h3 : (v + 1 + 1) % (4294967295 + 1) = v + 1 + 1 :=
      Nat.mod_eq_of_lt (by omega)
    rw [h3]
    have h4 : ¬(4294967295 - 1 ≤ v) := by omega
    rw [if_neg h4]
  · have hv2 : v = 4294967294 ∨ v = 4294967295 := by omega
    rcases hv2 with h | h <;> subst h <;> decide

/-- A lock ... unlock section whose interior is all writes is both a
single lock section and write-safe from depth 0. -/
theorem lock_section_ok (ws : List LockEvent) (h : ws.all LockEvent.isWrite = true) :
    singleLockSection (LockEvent.lock :: ws ++ [LockEvent.unlock]) = true ∧
    writesUnderLock 0 (LockEvent.lock :: ws ++ [LockEvent.unlock]) = true := by
  refine ⟨singleLockSection_writes ws h, ?_⟩
  simp only [List.cons_append, writesUnderLock]
  exact writesUnderLock_writes_unlock ws h 1 (by omega)

/-- Claim C1, counterexample: the claim says the published version is
old_version + 1 (wrapping); from stable version 0 the code publishes 2,
not 1. -/
theorem C1_counterexample :
    next_seq 0 = 2 ∧ next_seq 0 ≠ (0 + 1) % (UINT_MAX + 1) := by decide

/-- Claim C1 (amended): for every completed write to a slot whose stable
version before the write is v, the published version is next_seq v,
which equals v + 2 for v < UINT_MAX - 1 and 1 for the top two values of
v; it is strictly greater than v in the wrapping order, but it equals
the in-flight sentinel exactly when v = UINT_MAX - 2 (the sentinel-skip
test fires one increment too early), so the published version is the
sentinel for that one stable version. -/
theorem C1_write_gid_version_amended (v : Nat) (hv : v < UINT_MAX + 1)
    (mg : ModifyGid) (port : Nat) (cache : CacheTable) (ix : Nat)
    (gid : Gid) (attr : GidAttr) (hix : ix < cache.data_vec.length)
    (hseq : (cache.data_vec.getD ix zentry).seq = v) :
    ((write_gid mg port cache ix gid attr).1.data_vec.getD ix zentry).seq
        = next_seq v
    ∧ next_seq v = (if UINT_MAX - 1 ≤ v then 1 else v + 2)
    ∧ (next_seq v = SEQ_SENTINEL ↔ v = UINT_MAX - 2)
    ∧ seq_wlt v (next_seq v) := by
  have hU : UINT_MAX = 4294967295 := rfl
  have hcf := next_seq_closed v hv
  refine ⟨?_, hcf, ?_, ?_⟩
  · simp only [write_gid]
    rw [getD_set_self _ _ _ _ hix]
    simp only [List.getD_eq_getElem?_getD] at hseq
    split_ifs <;> simp [hseq]
  · rw [hcf]
    have hS : SEQ_SENTINEL = 4294967295 := rfl
    split_ifs with h <;> constructor <;> intro hh <;> omega
  · rw [hcf]
    simp only [seq_wlt, UINT_MAX]
    split_ifs with h <;> constructor <;> omega

/-- Claim C1, witness: the amended statement evaluated at stable version
0 on a concrete one-slot table. -/
theorem C1_witness :
    (0 < UINT_MAX + 1 ∧ 0 < t1.data_vec.length ∧
      (t1.data_vec.getD 0 zentry).seq = 0) ∧
    (((write_gid mgOk 1 t1 0 g1 a1).1.data_vec.getD 0 zentry).seq = next_seq 0
     ∧ next_seq 0 = (if UINT_MAX - 1 ≤ 0 then 1 else 0 + 2)
     ∧ (next_seq 0 = SEQ_SENTINEL ↔ 0 = UINT_MAX - 2)
     ∧ seq_wlt 0 (next_seq 0)) :=
  ⟨⟨by decide, by decide, by decide⟩,
   C1_write_gid_version_amended 0 (by decide) mgOk 1 t1 0 g1 a1 (by decide) (by decide)⟩

/-- Claim C2, counterexample: SetDefault on a one-slot active table with
kind mask 1 and an always-successful programming callback performs two
slot writes without ever acquiring the per-table lock, so the claim that
every mutating operation writes only inside a lock acquire/release pair
is false. -/
theorem C2_counterexample :
    writesUnderLock 0
      (roce_gid_cache_set_default_gid_trace mgOk ifid9 (some t1) 1 5 1) = false := by
  decide

/-- Claim C2 (amended): Add, Delete and DeleteAllForInterface each
produce an event trace that is a single lock ... unlock section holding
the lock across all their slot writes (in particular every slot-write
event happens with the lock held); SetDefault, by contrast, emits only
slot-write events and never acquires the per-table lock. -/
theorem C2_locking_amended (mg : ModifyGid) (ifid : Nat → Nat)
    (cache? : Option CacheTable) (port ndev gid_type_mask : Nat)
    (gid : Gid) (attr : GidAttr) :
    (singleLockSection (roce_add_gid_trace cache? gid attr) = true
     ∧ writesUnderLock 0 (roce_add_gid_trace cache? gid attr) = true)
    ∧ (singleLockSection (roce_del_gid_trace ifid cache? gid attr) = true
       ∧ writesUnderLock 0 (roce_del_gid_trace ifid cache? gid attr) = true)
    ∧ (singleLockSection (roce_del_all_netdev_gids_trace mg cache? port ndev) = true
       ∧ writesUnderLock 0 (roce_del_all_netdev_gids_trace mg cache? port ndev) = true)
    ∧ (roce_gid_cache_set_default_gid_trace mg ifid cache? port ndev gid_type_mask).all
        LockEvent.isWrite = true := by
  refine ⟨?_, ?_, ?_, ?_⟩
  · cases cache? with
    | none => exact ⟨rfl, rfl⟩
    | some cache =>
      by_cases ha : cache.active
      · simp only [roce_add_gid_trace, ha, Bool.not_true, if_neg]
        cases hf : find_gid (table_views cache) gid attr roce_gid_type_msk with
        | some i => simpa using lock_section_ok [] rfl
        | none =>
          cases hz : find_gid (table_views cache) zgid zattr zattr with
          | none => simpa using lock_section_ok [] rfl
          | some ix => simpa using lock_section_ok [LockEvent.write ix] rfl
      · have hna : cache.active = false := by
          cases h : cache.active
          · rfl
          · exact absurd h ha
        have ht : roce_add_gid_trace (some cache) gid attr = [] := by
          simp [roce_add_gid_trace, hna]
        rw [ht]
        exact ⟨rfl, rfl⟩
  · cases cache? with
    | none => exact ⟨rfl, rfl⟩
    | some cache =>
      by_cases ha : cache.active
      · by_cases hp : attr.ndev ≠ 0 ∧ gid = make_default_gid ifid attr.ndev
        · have ht : roce_del_gid_trace ifid (some cache) gid attr = [] := by
            simp [roce_del_gid_trace, ha, hp]
          rw [ht]
          exact ⟨rfl, rfl⟩
        · simp only [roce_del_gid_trace, ha, Bool.not_true, if_neg, hp, if_false]
          cases hf : find_gid (table_views cache) gid attr roce_gid_type_netdev_msk with
          | none => simpa using lock_section_ok [] rfl
          | some ix => simpa using lock_section_ok [LockEvent.write ix] rfl
      · have hna : cache.active = false := by
          cases h : cache.active
          · rfl
          · exact absurd h ha
        have ht : roce_del_gid_trace ifid (some cache) gid attr = [] := by
          simp [roce_del_gid_trace, hna]
        rw [ht]
        exact ⟨rfl, rfl⟩
  · cases cache? with
    | none => exact ⟨rfl, rfl⟩
    | some cache =>
      by_cases ha : cache.active
      · have hall : (((List.range cache.data_vec.length).foldl
            (fun (st : CacheTable × List LockEvent) ix =>
              if (st.1.data_vec.getD ix zentry).attr.ndev = ndev then
                ((write_gid mg port st.1 ix zgid zattr).1, st.2 ++ [LockEvent.write ix])
              else st)
            (cache, [])).2).all LockEvent.isWrite = true := by
          refine foldl_preserves _ (fun st => st.2.all LockEvent.isWrite = true)
            ?_ (List.range cache.data_vec.length) (cache, []) rfl
          intro s a hs
          dsimp only
          by_cases hc : (s.1.data_vec.getD a zentry).attr.ndev = ndev
          · rw [if_pos hc]
            simp only [List.all_append, hs, Bool.true_and, List.all_cons,
              List.all_nil, Bool.and_true]
            rfl
          · rw [if_neg hc]
            exact hs
        simp only [roce_del_all_netdev_gids_trace, ha, Bool.not_true, if_neg]
        simpa using lock_section_ok _ hall
      · have hna : cache.active = false := by
          cases h : cache.active
          · rfl
          · exact absurd h ha
        have ht : roce_del_all_netdev_gids_trace mg (some cache) port ndev = [] := by
          simp [roce_del_all_netdev_gids_trace, hna]
        rw [ht]
        exact ⟨rfl, rfl⟩
  · cases cache? with
    | none => rfl
    | some cache =>
      refine foldl_preserves _ (fun st => st.2.2.all LockEvent.isWrite = true)
        ?_ (List.range IB_GID_TYPE_SIZE) (cache, 0, []) rfl
      intro s a hs
      simp only [set_default_step_trace]
      split_ifs <;>
        simp only [List.all_append, hs, Bool.true_and, List.all_cons,
          List.all_nil, Bool.and_true] <;> rfl

/-- Claim C3, counterexample: SetDefault invoked on an inactive table
does not fail with NotReady — it has no failure path at all — and it
mutates the table, contradicting the claim that every operation on an
inactive table fails with NotReady and leaves the table unchanged. -/
theorem C3_counterexample :
    t0inact.active = false ∧
    roce_gid_cache_set_default_gid mgOk ifid9 (some t0inact) 1 5 1 ≠ some t0inact := by
  decide

/-- Claim C3 (amended): on an allocated but inactive table, Add, Delete,
DeleteAllForInterface and Get fail with -ENOSYS (NotReady) and leave the
table and the caller output buffers unchanged; when the device cache is
absent, Add fails with -ENOSYS but Delete and DeleteAllForInterface
return 0 (success, no-op) and Get fails with -EINVAL; SetDefault checks
neither condition (see the counterexample). -/
theorem C3_notready_amended (mg : ModifyGid) (ifid : Nat → Nat) (port ndev : Nat)
    (gid : Gid) (attr : GidAttr) (index : Int) (obs : Nat → SlotView)
    (gid0 : Gid) (attr0 : Option GidAttr) (cache : CacheTable)
    (h : cache.active = false) :
    roce_add_gid mg (some cache) port gid attr = (-ENOSYS, some cache)
    ∧ roce_del_gid mg ifid (some cache) port gid attr = (-ENOSYS, some cache)
    ∧ roce_del_all_netdev_gids mg (some cache) port ndev = (-ENOSYS, some cache)
    ∧ roce_gid_cache_get_gid (some cache) index obs gid0 attr0 = (-ENOSYS, gid0, attr0)
    ∧ roce_add_gid mg none port gid attr = (-ENOSYS, none)
    ∧ roce_del_gid mg ifid none port gid attr = (0, none)
    ∧ roce_del_all_netdev_gids mg none port ndev = (0, none)
    ∧ roce_gid_cache_get_gid none index obs gid0 attr0 = (-EINVAL, gid0, attr0) := by
  refine ⟨?_, ?_, ?_, ?_, rfl, rfl, rfl, rfl⟩
  · simp [roce_add_gid, h]
  · simp [roce_del_gid, h]
  · simp [roce_del_all_netdev_gids, h]
  · simp [roce_gid_cache_get_gid, h]

/-- Claim C3, witness: the amended statement evaluated on the concrete
inactive one-slot table. -/
theorem C3_witness :
    t0inact.active = false ∧
    (roce_add_gid mgOk (some t0inact) 1 g1 a1 = (-ENOSYS, some t0inact)
     ∧ roce_del_gid mgOk ifid9 (some t0inact) 1 g1 a1 = (-ENOSYS, some t0inact)
     ∧ roce_del_all_netdev_gids mgOk (some t0inact) 1 5 = (-ENOSYS, some t0inact)
     ∧ roce_gid_cache_get_gid (some t0inact) 0 obsW g1 none = (-ENOSYS, g1, none)
     ∧ roce_add_gid mgOk none 1 g1 a1 = (-ENOSYS, none)
     ∧ roce_del_gid mgOk ifid9 none 1 g1 a1 = (0, none)
     ∧ roce_del_all_netdev_gids mgOk none 1 5 = (0, none)
     ∧ roce_gid_cache_get_gid none 0 obsW g1 none = (-EINVAL, g1, none)) :=
  ⟨rfl, C3_notready_amended mgOk ifid9 1 5 g1 a1 0 obsW g1 none t0inact rfl⟩

/-- A Bool acceptance is false exactly when its propositional reading
fails. -/
theorem find_gid_match_false_iff (gid : Gid) (val msk : GidAttr) (w : SlotView) :
    find_gid_match gid val msk w = false ↔ ¬ FindMatchP gid val msk w := by
  rw [← find_gid_match_iff_P]
  cases find_gid_match gid val msk w <;> simp

/-- Claim C5: find scans the slot views in ascending index order and
returns the lowest index whose view has a non-sentinel first seq read,
matches kind under the mask, matches the identifier byte-exactly,
matches the interface pointer against the mask-and-value bitwise
combination, and has an unchanged seq at re-verification; a slot whose
seq changed between the two reads is not treated as found and the scan
continues; if no slot qualifies, find returns none. -/
theorem C5_find_gid_spec (views : List SlotView) (gid : Gid) (val msk : GidAttr) :
    (∀ i, find_gid views gid val msk = some i ↔
       ∃ v, views[i]? = some v ∧ FindMatchP gid val msk v ∧
         ∀ j w, j < i → views[j]? = some w → ¬ FindMatchP gid val msk w)
    ∧ (find_gid views gid val msk = none ↔
       ∀ v ∈ views, ¬ FindMatchP gid val msk v) := by
  constructor
  · intro i
    rw [find_gid_eq_some_iff gid val msk views i]
    constructor
    · rintro ⟨v, hv, hm, hlow⟩
      exact ⟨v, hv, (find_gid_match_iff_P gid val msk v).mp hm,
        fun j w hj hw => (find_gid_match_false_iff gid val msk w).mp (hlow j w hj hw)⟩
    · rintro ⟨v, hv, hm, hlow⟩
      exact ⟨v, hv, (find_gid_match_iff_P gid val msk v).mpr hm,
        fun j w hj hw => (find_gid_match_false_iff gid val msk w).mpr (hlow j w hj hw)⟩
  · rw [find_gid_eq_none_iff gid val msk views]
    constructor
    · intro h v hv
      exact (find_gid_match_false_iff gid val msk v).mp (h v hv)
    · intro h v hv
      exact (find_gid_match_false_iff gid val msk v).mpr (h v hv)

/-- Claim C5, witness: on the concrete two-slot view list the scan skips
the in-flight slot 0 and returns slot 1, the lowest qualifying index. -/
theorem C5_witness :
    ∃ v, viewsW[1]? = some v ∧ FindMatchP g1 a1 roce_gid_type_msk v ∧
      ∀ j w, j < 1 → viewsW[j]? = some w → ¬ FindMatchP g1 a1 roce_gid_type_msk w :=
  ((C5_find_gid_spec viewsW g1 a1 roce_gid_type_msk).1 1).mp (by decide)

/-- The empty-slot search (gid == zgid under the all-zero mask zattr)
accepts exactly the stable slots holding the zero identifier. -/
theorem empty_match_iff (w : SlotView) :
    FindMatchP zgid zattr zattr w ↔
      (w.seq1 ≠ SEQ_SENTINEL ∧ w.gid = zgid ∧ w.seq1 = w.seq2) := by
  simp only [FindMatchP, zattr]
  constructor
  · rintro ⟨h1, _, h3, _, h5⟩
    exact ⟨h1, h3, h5⟩
  · rintro ⟨h1, h3, h5⟩
    exact ⟨h1, fun h => absurd rfl h, h3, fun h => absurd rfl h, h5⟩

/-- Claim C4: Add on an active table is idempotent when a kind-only-mask
match exists (success, table unchanged); fails with -ENOSPC leaving the
table unchanged when no kind match and no empty slot exist; and
otherwise writes the requested entry into the empty slot found, which is
the lowest-index stable slot holding the zero identifier. -/
theorem C4_add_spec (mg : ModifyGid) (port : Nat) (gid : Gid) (attr : GidAttr)
    (cache : CacheTable) (h : cache.active = true) :
    ((∃ i, find_gid (table_views cache) gid attr roce_gid_type_msk = some i) →
       roce_add_gid mg (some cache) port gid attr = (0, some cache))
    ∧ (find_gid (table_views cache) gid attr roce_gid_type_msk = none →
       find_gid (table_views cache) zgid zattr zattr = none →
       roce_add_gid mg (some cache) port gid attr = (-ENOSPC, some cache))
    ∧ ∀ ix, find_gid (table_views cache) gid attr roce_gid_type_msk = none →
        find_gid (table_views cache) zgid zattr zattr = some ix →
        (roce_add_gid mg (some cache) port gid attr
           = (0, some (write_gid mg port cache ix gid attr).1)
         ∧ (∃ v, (table_views cache)[ix]? = some v ∧ v.gid = zgid
              ∧ v.seq1 ≠ SEQ_SENTINEL ∧ v.seq1 = v.seq2)
         ∧ ∀ j w, j < ix → (table_views cache)[j]? = some w →
             ¬ (w.seq1 ≠ SEQ_SENTINEL ∧ w.gid = zgid ∧ w.seq1 = w.seq2)) := by
  refine ⟨?_, ?_, ?_⟩
  · rintro ⟨i, hf⟩
    simp [roce_add_gid, h, hf]
  · intro h1 h2
    simp [roce_add_gid, h, h1, h2]
  · intro ix h1 h2
    refine ⟨by simp [roce_add_gid, h, h1, h2], ?_, ?_⟩
    · obtain ⟨v, hv, hm, hlow⟩ :=
        (find_gid_eq_some_iff zgid zattr zattr (table_views cache) ix).mp h2
      obtain ⟨e1, e2, e3⟩ :=
        (empty_match_iff v).mp ((find_gid_match_iff_P zgid zattr zattr v).mp hm)
      exact ⟨v, hv, e2, e1, e3⟩
    · intro j w hj hw hcontra
      obtain ⟨v, hv, hm, hlow⟩ :=
        (find_gid_eq_some_iff zgid zattr zattr (table_views cache) ix).mp h2
      have : find_gid_match zgid zattr zattr w = true :=
        (find_gid_match_iff_P zgid zattr zattr w).mpr
          ((empty_match_iff w).mpr ⟨hcontra.1, hcontra.2.1, hcontra.2.2⟩)
      rw [hlow j w hj hw] at this
      cases this

/-- Claim C4, witness: adding g1 to the concrete empty active one-slot
table takes the write branch at the lowest (only) empty slot 0. -/
theorem C4_witness :
    t1.active = true ∧
    (roce_add_gid mgOk (some t1) 1 g1 a1 = (0, some (write_gid mgOk 1 t1 0 g1 a1).1)
     ∧ (∃ v, (table_views t1)[0]? = some v ∧ v.gid = zgid
          ∧ v.seq1 ≠ SEQ_SENTINEL ∧ v.seq1 = v.seq2)
     ∧ ∀ j w, j < 0 → (table_views t1)[j]? = some w →
         ¬ (w.seq1 ≠ SEQ_SENTINEL ∧ w.gid = zgid ∧ w.seq1 = w.seq2)) :=
  ⟨rfl, (C4_add_spec mgOk 1 g1 a1 t1 rfl).2.2 0 (by decide) (by decide)⟩

/-- Claim C6: when the external programming callback fails during a
write, the slot is written as the empty entry — zero identifier, default
attributes, cleared per-entry context — with the sequence still
advanced, and write_gid reports the callback result; yet Add does not
escalate it: whenever Add reaches its write (active table, no kind-mask
match, an empty slot found) it returns 0 regardless of the callback
outcome. -/
theorem C6_modify_failure (mg : ModifyGid) (port : Nat) (gid : Gid)
    (attr : GidAttr) (cache : CacheTable) (ix : Nat) :
    (ix < cache.data_vec.length → (mg port ix gid attr).1 ≠ 0 →
       (write_gid mg port cache ix gid attr).1.data_vec.getD ix zentry
         = { seq := next_seq ((cache.data_vec.getD ix zentry).seq),
             gid := zgid, attr := zattr, context := 0 }
       ∧ (write_gid mg port cache ix gid attr).2 = (mg port ix gid attr).1)
    ∧ (cache.active = true →
       find_gid (table_views cache) gid attr roce_gid_type_msk = none →
       find_gid (table_views cache) zgid zattr zattr = some ix →
       (roce_add_gid mg (some cache) port gid attr).1 = 0) := by
  constructor
  · intro hix hr
    refine ⟨?_, rfl⟩
    simp only [write_gid]
    rw [getD_set_self _ _ _ _ hix, if_pos hr]
  · intro ha h1 h2
    simp [roce_add_gid, ha, h1, h2]

/-- Claim C6, witness: with the always-failing callback on the concrete
empty active table, the written slot is the empty entry and Add still
returns 0. -/
theorem C6_witness :
    (0 < t1.data_vec.length ∧ (mgFail 1 0 g1 a1).1 ≠ 0 ∧ t1.active = true
     ∧ find_gid (table_views t1) g1 a1 roce_gid_type_msk = none
     ∧ find_gid (table_views t1) zgid zattr zattr = some 0) ∧
    ((write_gid mgFail 1 t1 0 g1 a1).1.data_vec.getD 0 zentry
       = { seq := next_seq ((t1.data_vec.getD 0 zentry).seq),
           gid := zgid, attr := zattr, context := 0 }
     ∧ (write_gid mgFail 1 t1 0 g1 a1).2 = (mgFail 1 0 g1 a1).1)
    ∧ (roce_add_gid mgFail (some t1) 1 g1 a1).1 = 0 :=
  ⟨⟨by decide, by decide, rfl, by decide, by decide⟩,
   (C6_modify_failure mgFail 1 g1 a1 t1 0).1 (by decide) (by decide),
   (C6_modify_failure mgFail 1 g1 a1 t1 0).2 rfl (by decide) (by decide)⟩

/-- Claim C7: on an active table, Delete with a set interface whose
identifier equals the interface-derived default identifier fails with
-EPERM and leaves the table unchanged; and a Delete whose identifier
matches no stored entry under the kind+interface deletion mask is a
silent no-op returning 0 with the table unchanged. -/
theorem C7_del_default_spec (mg : ModifyGid) (ifid : Nat → Nat) (port : Nat)
    (gid : Gid) (attr : GidAttr) (cache : CacheTable) (h : cache.active = true) :
    (attr.ndev ≠ 0 → gid = make_default_gid ifid attr.ndev →
       roce_del_gid mg ifid (some cache) port gid attr = (-EPERM, some cache))
    ∧ ((attr.ndev = 0 ∨ gid ≠ make_default_gid ifid attr.ndev) →
       find_gid (table_views cache) gid attr roce_gid_type_netdev_msk = none →
       roce_del_gid mg ifid (some cache) port gid attr = (0, some cache)) := by
  constructor
  · intro h1 h2
    simp [roce_del_gid, h, h1, h2]
  · intro h1 h2
    have hcond : ¬(attr.ndev ≠ 0 ∧ gid = make_default_gid ifid attr.ndev) := by
      rintro ⟨ha, hb⟩
      rcases h1 with h1 | h1
      · exact ha h1
      · exact h1 hb
    simp [roce_del_gid, h, hcond, h2]

/-- Claim C7, witness: deleting the default GID of interface 5 is
rejected with -EPERM; deleting the never-stored g1 is a silent
successful no-op. -/
theorem C7_witness :
    t1.active = true ∧
    roce_del_gid mgOk ifid9 (some t1) 1 (make_default_gid ifid9 5) a1
      = (-EPERM, some t1) ∧
    roce_del_gid mgOk ifid9 (some t1) 1 g1 a1 = (0, some t1) :=
  ⟨rfl,
   (C7_del_default_spec mgOk ifid9 1 (make_default_gid ifid9 5) a1 t1 rfl).1
     (by decide) rfl,
   (C7_del_default_spec mgOk ifid9 1 g1 a1 t1 rfl).2 (Or.inr (by decide)) (by decide)⟩

/-- Claim C8: SetDefault iterates the kinds in ascending order (the
foldl over List.range IB_GID_TYPE_SIZE); a kind whose mask bit is clear
leaves the (table, success) state untouched; for a kind in the mask the
step first writes the empty entry at the slot indexed by the success
counter and, only if that delete succeeded, writes the interface-derived
default identifier into the same slot; the success counter advances
exactly when both writes succeed, and no failure aborts the iteration
over the remaining kinds. -/
theorem C8_set_default_spec (mg : ModifyGid) (ifid : Nat → Nat)
    (port ndev gid_type_mask : Nat) (cache : CacheTable)
    (hm : gid_type_mask < UINTPTR_MAX + 1) :
    roce_gid_cache_set_default_gid mg ifid (some cache) port ndev gid_type_mask
      = some (((List.range IB_GID_TYPE_SIZE).foldl
          (set_default_step mg port ndev (make_default_gid ifid ndev) gid_type_mask)
          (cache, 0)).1)
    ∧ ∀ (st : CacheTable × Nat) (i : Nat), i < 64 →
        (¬ gid_type_mask.testBit i →
          set_default_step mg port ndev (make_default_gid ifid ndev) gid_type_mask st i
            = st)
        ∧ (gid_type_mask.testBit i →
          set_default_step mg port ndev (make_default_gid ifid ndev) gid_type_mask st i
            = (let p1 := write_gid mg port st.1 st.2 zgid zattr
               if p1.2 ≠ 0 then (p1.1, st.2)
               else
                 let p2 := write_gid mg port p1.1 st.2 (make_default_gid ifid ndev)
                     { gid_type := i, ndev := ndev }
                 if p2.2 ≠ 0 then (p2.1, st.2) else (p2.1, st.2 + 1)))
        ∧ ((set_default_step mg port ndev (make_default_gid ifid ndev) gid_type_mask
              st i).2 = st.2 + 1 ↔
           gid_type_mask.testBit i
           ∧ (write_gid mg port st.1 st.2 zgid zattr).2 = 0
           ∧ (write_gid mg port (write_gid mg port st.1 st.2 zgid zattr).1 st.2
                (make_default_gid ifid ndev) { gid_type := i, ndev := ndev }).2 = 0) := by
  refine ⟨rfl, ?_⟩
  intro st i hi
  have hskip := set_default_skip_iff gid_type_mask i hm hi
  refine ⟨?_, ?_, ?_⟩
  · intro hbit
    simp only [set_default_step]
    rw [if_pos (hskip.mpr hbit)]
  · intro hbit
    simp only [set_default_step]
    rw [if_neg (fun hcontra => (hskip.mp hcontra) hbit)]
  · simp only [set_default_step]
    split_ifs with hc h1 h2
    · constructor
      · intro heq
        exact absurd heq (by omega)
      · rintro ⟨hbit, _, _⟩
        exact absurd hbit (hskip.mp hc)
    · constructor
      · intro heq
        simp at heq
      · rintro ⟨_, hw1, _⟩
        exact absurd hw1 h1
    · constructor
      · intro heq
        simp at heq
      · rintro ⟨_, _, hw2⟩
        exact absurd hw2 h2
    · have hbit : gid_type_mask.testBit i := by
        by_contra hb
        exact hc (hskip.mpr hb)
      constructor
      · intro _
        exact ⟨hbit, not_not.mp h1, not_not.mp h2⟩
      · intro _
        rfl

/-- Claim C8, witness: with kind mask 2 on the concrete table, the
iteration structure holds and the step for kind 0 (mask bit clear) is a
no-op. -/
theorem C8_witness :
    (2 < UINTPTR_MAX + 1 ∧ (0 : Nat) < 64 ∧ ¬ (2 : Nat).testBit 0) ∧
    roce_gid_cache_set_default_gid mgOk ifid9 (some t1) 1 5 2
      = some (((List.range IB_GID_TYPE_SIZE).foldl
          (set_default_step mgOk 1 5 (make_default_gid ifid9 5) 2) (t1, 0)).1) ∧
    set_default_step mgOk 1 5 (make_default_gid ifid9 5) 2 (t1, 0) 0 = (t1, 0) :=
  ⟨⟨by decide, by decide, by decide⟩,
   (C8_set_default_spec mgOk ifid9 1 5 2 t1 (by decide)).1,
   ((C8_set_default_spec mgOk ifid9 1 5 2 t1 (by decide)).2 (t1, 0) 0 (by decide)).1
     (by decide)⟩

/-- Claim C9: interface registered or brought up resolves to a work item
whose worker executes exactly the add-interface-addresses command;
interface unregistered while reg_state is still below
NETREG_UNREGISTERED resolves to exactly the delete-all-for-interface
command, and to no work item once fully unregistered; interface address
changed resolves to delete-all-for-interface followed by
add-interface-addresses, executed in that order; NETDEV_DOWN and every
other notification produce no work item. -/
theorem C9_event_resolution (reg_state : Nat) :
    (netdevice_event NetdevEvent.netdev_register reg_state true).map
        netdevice_event_work_handler = some [add_cmd]
    ∧ (netdevice_event NetdevEvent.netdev_up reg_state true).map
        netdevice_event_work_handler = some [add_cmd]
    ∧ (reg_state < NETREG_UNREGISTERED →
       (netdevice_event NetdevEvent.netdev_unregister reg_state true).map
          netdevice_event_work_handler = some [del_cmd])
    ∧ (NETREG_UNREGISTERED ≤ reg_state →
       netdevice_event NetdevEvent.netdev_unregister reg_state true = none)
    ∧ (netdevice_event NetdevEvent.netdev_changeaddr reg_state true).map
        netdevice_event_work_handler = some [del_cmd, add_cmd]
    ∧ netdevice_event NetdevEvent.netdev_down reg_state true = none
    ∧ netdevice_event NetdevEvent.other reg_state true = none := by
  refine ⟨rfl, rfl, ?_, ?_, rfl, rfl, rfl⟩
  · intro h
    simp [netdevice_event, netdevice_event_work_handler, h]
  · intro h
    simp [netdevice_event, Nat.not_lt.mpr h]

/-- Claim C9, witness: the resolution evaluated at the reg_state values
2 (still unregistering) and 3 (fully unregistered). -/
theorem C9_witness :
    (2 < NETREG_UNREGISTERED ∧ NETREG_UNREGISTERED ≤ 3) ∧
    (netdevice_event NetdevEvent.netdev_unregister 2 true).map
        netdevice_event_work_handler = some [del_cmd] ∧
    netdevice_event NetdevEvent.netdev_unregister 3 true = none ∧
    (netdevice_event NetdevEvent.netdev_changeaddr 2 true).map
        netdevice_event_work_handler = some [del_cmd, add_cmd] :=
  ⟨⟨by decide, by decide⟩,
   (C9_event_resolution 2).2.2.1 (by decide),
   (C9_event_resolution 3).2.2.2.1 (by decide),
   (C9_event_resolution 2).2.2.2.2.1⟩

/-- Claim C10: whenever Get fails — for any reason, including -EAGAIN on
a transient miss (sentinel first read or differing seq reads) and
-EINVAL on an index outside capacity — the caller output buffers keep
exactly their input contents; the copied slot data reaches the outputs
only on success. -/
theorem C10_get_gid_outputs (cache? : Option CacheTable) (index : Int)
    (obs : Nat → SlotView) (gid0 : Gid) (attr0 : Option GidAttr) :
    ((roce_gid_cache_get_gid cache? index obs gid0 attr0).1 ≠ 0 →
       (roce_gid_cache_get_gid cache? index obs gid0 attr0).2.1 = gid0
       ∧ (roce_gid_cache_get_gid cache? index obs gid0 attr0).2.2 = attr0)
    ∧ ∀ cache, cache? = some cache → cache.active = true →
        ((index < 0 ∨ (cache.data_vec.length : Int) ≤ index) →
          roce_gid_cache_get_gid cache? index obs gid0 attr0 = (-EINVAL, gid0, attr0))
        ∧ (0 ≤ index → index < (cache.data_vec.length : Int) →
          ((obs index.toNat).seq1 = SEQ_SENTINEL
            ∨ (obs index.toNat).seq1 ≠ (obs index.toNat).seq2) →
          roce_gid_cache_get_gid cache? index obs gid0 attr0
            = (-EAGAIN, gid0, attr0)) := by
  refine ⟨?_, ?_⟩
  · intro hne
    cases cache? with
    | none => exact ⟨rfl, rfl⟩
    | some cache =>
      simp only [roce_gid_cache_get_gid] at hne ⊢
      split_ifs at hne ⊢
      · exact ⟨rfl, rfl⟩
      · exact ⟨rfl, rfl⟩
      · exact ⟨rfl, rfl⟩
      · exact absurd rfl hne
  · intro cache hc ha
    subst hc
    constructor
    · intro hrange
      simp [roce_gid_cache_get_gid, ha, hrange]
    · intro hge hlt htrans
      have hrange : ¬(index < 0 ∨ (cache.data_vec.length : Int) ≤ index) := by omega
      simp [roce_gid_cache_get_gid, ha, hrange, htrans]

/-- Claim C10, witness: an out-of-range index and a racing observation
both fail while returning the untouched input buffers. -/
theorem C10_witness :
    ((roce_gid_cache_get_gid (some t1) 5 obsW g1 none).1 ≠ 0 ∧
     (roce_gid_cache_get_gid (some t1) 5 obsW g1 none).2.1 = g1 ∧
     (roce_gid_cache_get_gid (some t1) 5 obsW g1 none).2.2 = none) ∧
    (t1.active = true ∧
     roce_gid_cache_get_gid (some t1) 5 obsW g1 none = (-EINVAL, g1, none) ∧
     roce_gid_cache_get_gid (some t1) 0 obsT g1 none = (-EAGAIN, g1, none)) :=
  ⟨⟨by decide, (C10_get_gid_outputs (some t1) 5 obsW g1 none).1 (by decide)⟩,
   ⟨rfl,
    ((C10_get_gid_outputs (some t1) 5 obsW g1 none).2 t1 rfl rfl).1 (by decide),
    ((C10_get_gid_outputs (some t1) 0 obsT g1 none).2 t1 rfl rfl).2 (by decide)
      (by decide) (by decide)⟩⟩
